import Mathlib

/-!
# Verification of the Slack messaging-bot core (src/utils/slack.js, src/server.js)

Shallow embedding of the repository's core logic:

* `parseDateTime` models the function of the same name in `src/utils/slack.js`,
  including the host JavaScript engine's calendar semantics for
  `new Date(year, monthIndex, day, h, m, s)` (ECMA-262 `MakeDay`/`MakeTime`/
  `TimeClip`): two-digit years are mapped to `1900 + year`, out-of-range
  components roll over into neighbouring months/years, and only instants with
  `|ms| ≤ 8.64e15` are representable.  The host's local time zone is modelled
  as UTC (the code applies no zone beyond "the host's local interpretation",
  and every statement proved here uses the same interpretation in both
  directions, so the choice of a fixed zone is immaterial).
* The message cache, the retrying resolver `findMessageByTimestamp`, the
  membership guard `ensureBotInChannel` and the five operations are modelled
  as pure functions threading the cache state explicitly and returning, next
  to their result, the list of network calls and back-off sleeps they perform.
  Remote responses are supplied by an `Oracle` record; JavaScript exceptions
  become `Except String`, and the string an axios failure would expose as
  `error.response?.data?.error || error.message` is the string carried by the
  oracle's `.error` case.
-/

/-- Digits of a decimal numeral to its value (used to model `Number(...)`). -/
def digitsToNat (l : List Char) : Nat :=
  l.foldl (fun a ch => 10 * a + (ch.toNat - 48)) 0

/-- Model of JavaScript `Number(s)` on the fragment of strings this program
feeds it (pieces of `dd/mm/yyyy` and `hh:mm:ss` inputs): the empty string is
`0`, an all-digit string is its value, anything else is `NaN` (`none`). -/
def jsNumChars (l : List Char) : Option Int :=
  if l = [] then some 0
  else if l.all Char.isDigit then some (digitsToNat l) else none

/-- Split a character list at every occurrence of `sep`, keeping empty pieces,
exactly like JavaScript `String.prototype.split` with a one-character
separator (`"".split(c) = [""]`, `"a//b".split("/") = ["a","","b"]`). -/
def splitOnChar (sep : Char) : List Char → List (List Char)
  | [] => [[]]
  | c :: cs =>
    let r := splitOnChar sep cs
    if c = sep then [] :: r
    else
      match r with
      | h :: t => (c :: h) :: t
      | [] => [[c]]

/-- Proleptic Gregorian leap-year test on integers, as in ECMA-262
`DaysInYear` (true modulo, so negative years behave proleptically). -/
def isLeapZ (y : Int) : Bool :=
  (y % 4 == 0 && y % 100 != 0) || y % 400 == 0

/-- Same leap-year test on naturals. -/
def isLeapN (y : Nat) : Bool :=
  (y % 4 == 0 && y % 100 != 0) || y % 400 == 0

/-- Length of month `m` (1-based) in a year whose leap flag is `leap`. -/
def monthLen (leap : Bool) (m : Nat) : Nat :=
  match m with
  | 2 => if leap then 29 else 28
  | 4 => 30
  | 6 => 30
  | 9 => 30
  | 11 => 30
  | _ => 31

/-- Days strictly before month `m0 + 1` (so `m0` is the 0-based month index)
in a year with leap flag `leap`. -/
def monthOffsetN (leap : Bool) (m0 : Nat) : Nat :=
  match m0 with
  | 0 => 0
  | k + 1 => monthOffsetN leap k + monthLen leap (k + 1)

/-- Days from 0001-01-01 to the first day of year `y` in the proleptic
Gregorian calendar (floor divisions, so correct for `y ≤ 0` as well).  This
is ECMA-262 `DayFromYear` shifted by the 719162 days between 0001-01-01 and
1970-01-01. -/
def daysBeforeYearZ (y : Int) : Int :=
  365 * (y - 1) + Int.fdiv (y - 1) 4 - Int.fdiv (y - 1) 100 + Int.fdiv (y - 1) 400

/-- Model of `new Date(year, month-1, day, h, mi, s)` followed by
`Math.floor(date.getTime() / 1000)` (lines 39–45 of `src/utils/slack.js`),
with the host zone taken as UTC: ECMA-262 maps `0 ≤ year ≤ 99` to
`1900 + year`, normalises the month index with floor division/modulo,
lets out-of-range day/time components roll over arithmetically, and yields
an invalid date (`NaN`, hence the source's "Invalid date or time values"
error) exactly when the millisecond value exceeds `8.64e15` in magnitude. -/
def mkEpoch (day month year h mi s : Int) : Except String Int :=
  let yr := if 0 ≤ year ∧ year ≤ 99 then 1900 + year else year
  let ym := yr + Int.fdiv (month - 1) 12
  let mn := Int.emod (month - 1) 12
  let dayNum := daysBeforeYearZ ym + (monthOffsetN (isLeapZ ym) mn.toNat : Int)
      + (day - 1) - 719162
  let ms := dayNum * 86400000 + (h * 3600 + mi * 60 + s) * 1000
  if 8640000000000000 < ms.natAbs then
    .error "Invalid date/time format: Invalid date or time values"
  else .ok (Int.fdiv ms 1000)

/-- Seconds component: `timeParts[2] || 0` after the `some(isNaN)` guard has
ruled out `NaN` entries (absent or `0` both give `0`). -/
def secondsOf (rest : List (Option Int)) : Int :=
  match rest with
  | some s :: _ => s
  | _ => 0

/-- Model of `parseDateTime(dateStr, timeStr)` (`src/utils/slack.js` lines
19–50).  The thrown `Error` messages are reproduced after the function's own
`catch` re-wraps them as `` `Invalid date/time format: ${error.message}` ``.
The destructuring `[day, month, year] = dateStr.split('/').map(Number)`
yields `undefined` (falsy) for missing pieces and `NaN` (falsy) for
non-numeric ones, so every such case fails the `!day || !month || !year`
check, which the match below reproduces; likewise `timeParts.length < 2 ||
timeParts.some(isNaN)` for the time string. -/
def parseDateTime (dateStr timeStr : String) : Except String Int :=
  if dateStr.data = [] ∨ timeStr.data = [] then
    .error "Invalid date/time format: Date and time are required"
  else
    match (splitOnChar '/' dateStr.data).map jsNumChars with
    | some d :: some mo :: some y :: _ =>
      if d = 0 ∨ mo = 0 ∨ y = 0 then
        .error "Invalid date/time format: Invalid date format. Use dd/mm/yyyy"
      else
        match (splitOnChar ':' timeStr.data).map jsNumChars with
        | some h :: some mi :: rest =>
          if rest.contains none then
            .error "Invalid date/time format: Invalid time format. Use hh:mm or hh:mm:ss"
          else mkEpoch d mo y h mi (secondsOf rest)
        | _ =>
          .error "Invalid date/time format: Invalid time format. Use hh:mm or hh:mm:ss"
    | _ => .error "Invalid date/time format: Invalid date format. Use dd/mm/yyyy"

/-- Days in year `y` (naturals). -/
def daysInYearN (y : Nat) : Nat := if isLeapN y then 366 else 365

/-- Days in year `y` (integers). -/
def daysInYearZ (y : Int) : Nat := if isLeapZ y then 366 else 365

/-- Strip whole years (starting at year `y`) off a day count `n ≥ 0`,
returning the year reached and the remaining day-of-year.  `fuel` bounds the
number of steps; callers pass enough fuel for the recursion to finish. -/
def yearUpAux : Nat → Nat → Nat → Nat × Nat
  | 0, y, n => (y, n)
  | fuel + 1, y, n =>
    if n < daysInYearN y then (y, n) else yearUpAux fuel (y + 1) (n - daysInYearN y)

/-- Year and day-of-year of day number `n` counted from 0001-01-01. -/
def yearUp (n : Nat) : Nat × Nat := yearUpAux (n / 365 + 1) 1 n

/-- Downward companion of `yearUpAux` for day counts before 0001-01-01
(needed only to make the formatter total; no claim exercises it). -/
def yearDownAux : Nat → Int → Int → Int × Nat
  | 0, y, n => (y, n.toNat)
  | fuel + 1, y, n =>
    if n < 0 then yearDownAux fuel (y - 1) (n + daysInYearZ (y - 1)) else (y, n.toNat)

/-- Year and day-of-year of a (possibly negative) day number counted from
0001-01-01. -/
def yearDown (n : Int) : Int × Nat := yearDownAux (n.natAbs / 365 + 2) 1 n

/-- Strip whole months (starting at month `m`) off a day-of-year. -/
def monthOfAux : Nat → Bool → Nat → Nat → Nat × Nat
  | 0, _, m, doy => (m, doy + 1)
  | fuel + 1, leap, m, doy =>
    if doy < monthLen leap m then (m, doy + 1)
    else monthOfAux fuel leap (m + 1) (doy - monthLen leap m)

/-- Month (1-based) and day-of-month of a 0-based day-of-year. -/
def monthOf (leap : Bool) (doy : Nat) : Nat × Nat := monthOfAux 11 leap 1 doy

/-- Model of the host engine reformatting an epoch-seconds value back into
local calendar fields (`getFullYear`/`getMonth`/`getDate`/`getHours`/
`getMinutes`/`getSeconds` of ECMA-262, host zone again UTC): result is
`(year, month, day, hours, minutes, seconds)` with month and day 1-based. -/
def formatEpoch (e : Int) : Int × Nat × Nat × Nat × Nat × Nat :=
  let day := Int.fdiv e 86400
  let tod := (e - day * 86400).toNat
  let n := day + 719162
  let yd : Int × Nat :=
    if 0 ≤ n then ((yearUp n.toNat).1, (yearUp n.toNat).2) else yearDown n
  let md := monthOf (isLeapZ yd.1) yd.2
  (yd.1, md.1, md.2, tod / 3600, tod % 3600 / 60, tod % 60)

/-- A remote platform message: timestamp identifier and text body (the text
is optional because a JavaScript object's `text` field may be `undefined`,
and `editMessage` stores the raw `newText` into the cache). -/
structure Msg where
  ts : String
  text : Option String
deriving DecidableEq

/-- A cache entry as built by the source: `{ message, timestamp: Date.now() }`
(`timestamp` is the caching instant in milliseconds). -/
structure CacheEntry where
  message : Msg
  timestamp : Int
deriving DecidableEq

/-- The process-wide `messageCache` `Map`, modelled as an association list;
the code only uses `has`/`get`/`set`/`delete`, never iteration order. -/
abbrev Cache := List (String × CacheEntry)

/-- `CACHE_TTL` (milliseconds). -/
def CACHE_TTL : Int := 30000

/-- `MAX_RETRIES`. -/
def MAX_RETRIES : Nat := 2

/-- `MESSAGE_SEARCH_TIMEOUT` (milliseconds); in this model a timed-out
attempt is reported by the oracle as a `HistoryOutcome.timeout`. -/
def MESSAGE_SEARCH_TIMEOUT : Nat := 5000

/-- `Map.get` combined with `Map.has`. -/
def cacheFind (c : Cache) (k : String) : Option CacheEntry :=
  (List.find? (fun p => p.1 == k) c).map (fun p => p.2)

/-- `Map.set` (unconditional overwrite). -/
def cachePut (c : Cache) (k : String) (e : CacheEntry) : Cache :=
  (k, e) :: List.filter (fun p => !(p.1 == k)) c

/-- `Map.delete` (idempotent removal). -/
def cacheDelete (c : Cache) (k : String) : Cache :=
  List.filter (fun p => !(p.1 == k)) c

/-- The cache-read path of `findMessageByTimestamp` (lines 113–120): a hit
strictly younger than `CACHE_TTL` returns the message; a stale hit is
deleted as a side effect of the read and reported as a miss. -/
def cacheLookup (c : Cache) (now : Int) (k : String) : Option Msg × Cache :=
  match cacheFind c k with
  | some cached =>
    if now - cached.timestamp < CACHE_TTL then (some cached.message, c)
    else (none, cacheDelete c k)
  | none => (none, c)

/-- The cache key `` `${channel}:${timestamp}` `` for the target epoch. -/
def cacheKeyOf (channel : String) (timestamp : Int) : String :=
  channel ++ ":" ++ toString timestamp

/-- One network call of the remote platform interface. -/
inductive NetCall where
  | authTest
  | conversationsMembers (channel : String)
  | conversationsJoin (channel : String)
  | conversationsHistory (channel : String) (oldest latest : Int) (limit : Nat)
  | conversationsHistoryList (channel : String) (limit : Nat)
  | chatPostMessage (channel text : String)
  | chatScheduleMessage (channel text : String) (postAt : Int)
  | chatUpdate (channel ts text : String)
  | chatDelete (channel ts : String)
deriving DecidableEq

/-- An observable event: a network call leaving the process, or an awaited
back-off sleep of the given number of milliseconds. -/
inductive Ev where
  | net (c : NetCall)
  | sleep (ms : Nat)
deriving DecidableEq

/-- Outcome of one `conversations.history` attempt inside the resolver: the
5-second race lost (`timeout`), the transport failed (`netErr`, carrying the
string axios surfaces), or a response with its `ok` flag and optional
`messages` array arrived. -/
inductive HistoryOutcome where
  | timeout
  | netErr (msg : String)
  | resp (ok : Bool) (messages : Option (List Msg))

/-- The remote platform and clock, as one operation observes them.  Each
field is the response the corresponding endpoint would give; `history` is
indexed by the resolver's attempt number; write endpoints answer with their
`ok` flag and optional `error` field, and `.error` carries the string
`error.response?.data?.error || error.message` would produce for a
transport-level failure.  `now` is `Date.now()` (the claims proved here do
not depend on time advancing within a single operation). -/
structure Oracle where
  now : Int
  authTest : Except String String
  members : Except String (List String)
  joinResp : Except String (Bool × Option String)
  history : Nat → HistoryOutcome
  listResp : Except String (Bool × Option String × Option (List Msg))
  postResp : Except String (Bool × Option String)
  schedResp : Except String (Bool × Option String)
  updateResp : Except String (Bool × Option String)
  deleteResp : Except String (Bool × Option String)

/-- JavaScript truthiness of an optional string (`undefined` and `""` are
falsy). -/
def jsFalsy (s : Option String) : Bool :=
  match s with
  | none => true
  | some t => t.data = []

/-- `value || defaultString`. -/
def orDefault (s : Option String) (d : String) : String :=
  match s with
  | none => d
  | some t => if t.data = [] then d else t

/-- Model of parseFloat on the fixed-point timestamp strings the remote
platform uses for `ts` (digits, optionally a dot and more digits); the
claims only compare such values. -/
def parseTs (s : String) : ℚ :=
  match splitOnChar '.' s.data with
  | [a] => (digitsToNat a : ℚ)
  | [a, b] => (digitsToNat a : ℚ) + (digitsToNat b : ℚ) / ((10 : ℚ) ^ b.length)
  | _ => 0

/-- `Math.abs(parseFloat(m.ts) - timestamp)`. -/
def tsDiff (m : Msg) (timestamp : Int) : ℚ :=
  |parseTs m.ts - (timestamp : ℚ)|

/-- The `reduce` step selecting the candidate closer to the target (strict
comparison, so on a tie the earlier message is kept). -/
def pickCloser (timestamp : Int) (prev curr : Msg) : Msg :=
  if tsDiff curr timestamp < tsDiff prev timestamp then curr else prev

/-- Evaluation of one attempt's guard (lines 145–149): a timeout or
transport error is the caught exception's message; a response with
`ok: false`, a missing `messages` field, or zero messages throws
"Message not found at the specified time"; otherwise the non-empty
candidate list is available. -/
def attemptResult (h : HistoryOutcome) : Except String (List Msg) :=
  match h with
  | .timeout => .error "Message search timed out"
  | .netErr m => .error m
  | .resp ok msgs =>
    match msgs with
    | none => .error "Message not found at the specified time"
    | some l => if ok = false ∨ l = [] then .error "Message not found at the specified time" else .ok l

/-- The retry loop of `findMessageByTimestamp` (lines 122–175).  `retries`
is the source's mutable counter; `fuel` is `MAX_RETRIES + 1 - retries`, so
the `fuel = 0` case is the source's unreachable final `throw`.  Each
iteration emits the `conversations.history` call (the request leaves the
process even when the 5-second race is lost), and each failed attempt that
still has retries left awaits `sleep(500 * retries)` after the increment. -/
def findLoop (o : Oracle) (channel : String) (timestamp : Int) (cacheKey : String)
    (cache : Cache) : Nat → Nat → Except String Msg × Cache × List Ev
  | 0, _ => (.error "Max retries reached while searching for message", cache, [])
  | fuel + 1, retries =>
    let ev := Ev.net (.conversationsHistory channel (timestamp - 2) (timestamp + 2) 5)
    match attemptResult (o.history retries) with
    | .ok (m :: ms) =>
      let closest := ms.foldl (pickCloser timestamp) m
      (.ok closest, cachePut cache cacheKey ⟨closest, o.now⟩, [ev])
    | .ok [] =>
      (.error "Message not found at the specified time", cache, [ev])
    | .error e =>
      let r := retries + 1
      if MAX_RETRIES < r then (.error ("Failed to find message: " ++ e), cache, [ev])
      else
        let rec_ := findLoop o channel timestamp cacheKey cache fuel r
        (rec_.1, rec_.2.1, ev :: Ev.sleep (500 * r) :: rec_.2.2)

/-- Model of `findMessageByTimestamp` (lines 110–176): cache lookup with
lazy eviction, then up to `1 + MAX_RETRIES` attempts. -/
def findMessageByTimestamp (o : Oracle) (cache : Cache) (channel : String)
    (timestamp : Int) : Except String Msg × Cache × List Ev :=
  let cacheKey := cacheKeyOf channel timestamp
  match cacheLookup cache o.now cacheKey with
  | (some m, c) => (.ok m, c, [])
  | (none, c) => findLoop o channel timestamp cacheKey c (MAX_RETRIES + 1) 0

/-- Model of `isBotInChannel` (lines 53–68): any error in `auth.test` or
`conversations.members` degrades to `false`; a failing `auth.test` means
`conversations.members` is never reached. -/
def isBotInChannel (o : Oracle) (channel : String) : Bool × List Ev :=
  match o.authTest with
  | .error _ => (false, [.net .authTest])
  | .ok botId =>
    match o.members with
    | .error _ => (false, [.net .authTest, .net (.conversationsMembers channel)])
    | .ok ms => (ms.contains botId, [.net .authTest, .net (.conversationsMembers channel)])

/-- Model of `joinChannel` (lines 71–88): a transport failure or `ok: false`
response is re-thrown as `` `Failed to join channel: ...` ``. -/
def joinChannel (o : Oracle) (channel : String) : Except String Bool × List Ev :=
  match o.joinResp with
  | .error e => (.error ("Failed to join channel: " ++ e), [.net (.conversationsJoin channel)])
  | .ok (ok, errF) =>
    if ok then (.ok true, [.net (.conversationsJoin channel)])
    else (.error ("Failed to join channel: " ++ errF.getD "Failed to join channel"),
      [.net (.conversationsJoin channel)])

/-- The channel-id shape check of `ensureBotInChannel` line 93:
`!channel || !['C','G','D'].includes(channel[0])` (an empty string is falsy,
and `channel[0]` of an empty string is `undefined`, which is not in the
list). -/
def validChannelShape (channel : String) : Bool :=
  match channel.data with
  | [] => false
  | c :: _ => c = 'C' ∨ c = 'G' ∨ c = 'D'

/-- The error message thrown for an invalid channel-id shape. -/
def invalidChannelMsg : String :=
  "Invalid channel ID format. Must start with C (public), G (private), or D (DM)"

/-- Model of `ensureBotInChannel` (lines 91–107): shape check before any
network call, then best-effort membership query, then join if needed. -/
def ensureBotInChannel (o : Oracle) (channel : String) : Except String Bool × List Ev :=
  if validChannelShape channel = false then (.error invalidChannelMsg, [])
  else
    match isBotInChannel o channel with
    | (true, tr) => (.ok true, tr)
    | (false, tr) =>
      match joinChannel o channel with
      | (.ok _, tr2) => (.ok true, tr ++ tr2)
      | (.error e, tr2) => (.error e, tr ++ tr2)

/-- Model of `getMessages` (lines 179–212): membership guard, one history
query of the latest 10 messages, then the cache is seeded with every
returned message under its own `ts`. -/
def getMessages (o : Oracle) (cache : Cache) (channel : String) :
    Except String Unit × Cache × List Ev :=
  match ensureBotInChannel o channel with
  | (.error e, tr) => (.error ("Retrieve messages failed: " ++ e), cache, tr)
  | (.ok _, tr) =>
    let ev := Ev.net (.conversationsHistoryList channel 10)
    match o.listResp with
    | .error e => (.error ("Retrieve messages failed: " ++ e), cache, tr ++ [ev])
    | .ok (ok, errF, msgs) =>
      if ok = false then
        (.error ("Retrieve messages failed: " ++ errF.getD "Failed to get messages"),
          cache, tr ++ [ev])
      else
        match msgs with
        | none => (.ok (), cache, tr ++ [ev])
        | some l =>
          (.ok (), l.foldl (fun c msg => cachePut c (channel ++ ":" ++ msg.ts) ⟨msg, o.now⟩) cache,
            tr ++ [ev])

/-- Model of `sendMessage` (lines 215–237): membership guard, then
`chat.postMessage` with `text || "Hello from InternshipBot!"`. -/
def sendMessage (o : Oracle) (cache : Cache) (channel : String) (text : Option String) :
    Except String Unit × Cache × List Ev :=
  match ensureBotInChannel o channel with
  | (.error e, tr) => (.error ("Send message failed: " ++ e), cache, tr)
  | (.ok _, tr) =>
    let ev := Ev.net (.chatPostMessage channel (orDefault text "Hello from InternshipBot!"))
    match o.postResp with
    | .error e => (.error ("Send message failed: " ++ e), cache, tr ++ [ev])
    | .ok (ok, errF) =>
      if ok then (.ok (), cache, tr ++ [ev])
      else (.error ("Send message failed: " ++ errF.getD "Failed to send message"),
        cache, tr ++ [ev])

/-- Model of `scheduleMessage` (lines 240–271): membership guard, date/time
resolution, then `chat.scheduleMessage` with the default text when `text`
is falsy (the catch block wraps `error.message`). -/
def scheduleMessage (o : Oracle) (cache : Cache) (channel : String) (text : Option String)
    (date time : String) : Except String Unit × Cache × List Ev :=
  match ensureBotInChannel o channel with
  | (.error e, tr) => (.error ("Schedule message failed: " ++ e), cache, tr)
  | (.ok _, tr) =>
    match parseDateTime date time with
    | .error e => (.error ("Schedule message failed: " ++ e), cache, tr)
    | .ok postAt =>
      let ev := Ev.net (.chatScheduleMessage channel
        (orDefault text "Scheduled message from InternshipBot!") postAt)
      match o.schedResp with
      | .error e => (.error ("Schedule message failed: " ++ e), cache, tr ++ [ev])
      | .ok (ok, errF) =>
        if ok then (.ok (), cache, tr ++ [ev])
        else (.error ("Schedule message failed: " ++ errF.getD "Failed to schedule message"),
          cache, tr ++ [ev])

/-- Model of `editMessage` (lines 274–313): membership guard, date/time
resolution, message resolution, `chat.update` against the resolved
message's exact `ts` with `newText || "Updated message from
InternshipBot!"`, then the cache entry under `` `${channel}:${message.ts}` ``
is overwritten with `{ ...message, text: newText }` (the raw `newText`). -/
def editMessage (o : Oracle) (cache : Cache) (channel : String) (date time : String)
    (newText : Option String) : Except String Unit × Cache × List Ev :=
  match ensureBotInChannel o channel with
  | (.error e, tr) => (.error ("Edit message failed: " ++ e), cache, tr)
  | (.ok _, tr) =>
    match parseDateTime date time with
    | .error e => (.error ("Edit message failed: " ++ e), cache, tr)
    | .ok timestamp =>
      match findMessageByTimestamp o cache channel timestamp with
      | (.error e, c2, tr2) => (.error ("Edit message failed: " ++ e), c2, tr ++ tr2)
      | (.ok message, c2, tr2) =>
        let ev := Ev.net (.chatUpdate channel message.ts
          (orDefault newText "Updated message from InternshipBot!"))
        match o.updateResp with
        | .error e => (.error ("Edit message failed: " ++ e), c2, tr ++ tr2 ++ [ev])
        | .ok (ok, errF) =>
          if ok then
            (.ok (),
              cachePut c2 (channel ++ ":" ++ message.ts) ⟨{ message with text := newText }, o.now⟩,
              tr ++ tr2 ++ [ev])
          else (.error ("Edit message failed: " ++ errF.getD "Failed to edit message"),
            c2, tr ++ tr2 ++ [ev])

/-- Model of `deleteMessage` (lines 316–350): membership guard, date/time
resolution, message resolution, `chat.delete` against the resolved
message's exact `ts`, then the cache entry under
`` `${channel}:${message.ts}` `` is deleted. -/
def deleteMessage (o : Oracle) (cache : Cache) (channel : String) (date time : String) :
    Except String Unit × Cache × List Ev :=
  match ensureBotInChannel o channel with
  | (.error e, tr) => (.error ("Delete message failed: " ++ e), cache, tr)
  | (.ok _, tr) =>
    match parseDateTime date time with
    | .error e => (.error ("Delete message failed: " ++ e), cache, tr)
    | .ok timestamp =>
      match findMessageByTimestamp o cache channel timestamp with
      | (.error e, c2, tr2) => (.error ("Delete message failed: " ++ e), c2, tr ++ tr2)
      | (.ok message, c2, tr2) =>
        let ev := Ev.net (.chatDelete channel message.ts)
        match o.deleteResp with
        | .error e => (.error ("Delete message failed: " ++ e), c2, tr ++ tr2 ++ [ev])
        | .ok (ok, errF) =>
          if ok then
            (.ok (), cacheDelete c2 (channel ++ ":" ++ message.ts), tr ++ tr2 ++ [ev])
          else (.error ("Delete message failed: " ++ errF.getD "Failed to delete message"),
            c2, tr ++ tr2 ++ [ev])

/-- `channel || "#test"` in every route of `src/server.js`. -/
def channelOrTest (c : Option String) : String := orDefault c "#test"

/-- The `POST /send` route (`src/server.js` lines 9–20): missing or empty
text is rejected with a 400 before the core is touched; the channel
defaults to `"#test"`. -/
def sendHandler (o : Oracle) (cache : Cache) (text channel : Option String) :
    Except String Unit × Cache × List Ev :=
  if jsFalsy text then (.error "Text is required", cache, [])
  else sendMessage o cache (channelOrTest channel) text

/-- The `POST /schedule` route (lines 22–33). -/
def scheduleHandler (o : Oracle) (cache : Cache) (text date time channel : Option String) :
    Except String Unit × Cache × List Ev :=
  if jsFalsy text ∨ jsFalsy date ∨ jsFalsy time then
    (.error "Text, date and time are required", cache, [])
  else scheduleMessage o cache (channelOrTest channel) text (date.getD "") (time.getD "")

/-- The `GET /messages` route (lines 35–43). -/
def messagesHandler (o : Oracle) (cache : Cache) (channel : Option String) :
    Except String Unit × Cache × List Ev :=
  getMessages o cache (channelOrTest channel)

/-- The `POST /edit` route (lines 45–56). -/
def editHandler (o : Oracle) (cache : Cache) (date time newText channel : Option String) :
    Except String Unit × Cache × List Ev :=
  if jsFalsy date ∨ jsFalsy time ∨ jsFalsy newText then
    (.error "Date, time and new text are required", cache, [])
  else editMessage o cache (channelOrTest channel) (date.getD "") (time.getD "") newText

/-- The `DELETE /delete` route (lines 58–69). -/
def deleteHandler (o : Oracle) (cache : Cache) (date time channel : Option String) :
    Except String Unit × Cache × List Ev :=
  if jsFalsy date ∨ jsFalsy time then
    (.error "Date and time are required", cache, [])
  else deleteMessage o cache (channelOrTest channel) (date.getD "") (time.getD "")

/-- Whether an operation result is a success envelope. -/
def isOkResult (r : Except String Unit) : Bool :=
  match r with
  | .ok _ => true
  | .error _ => false

/-- The winner `findMessageByTimestamp` computes from a non-empty candidate
list is a first-encountered minimiser of the absolute timestamp distance:
it occurs in the list, no candidate is strictly closer to the target, and
every earlier candidate is strictly farther. -/
def isClosestFirst (l : List Msg) (timestamp : Int) (w : Msg) : Prop :=
  ∃ i : Nat, l[i]? = some w ∧
    (∀ (j : Nat) (mj : Msg), l[j]? = some mj → tsDiff w timestamp ≤ tsDiff mj timestamp) ∧
    (∀ (j : Nat) (mj : Msg), j < i → l[j]? = some mj → tsDiff w timestamp < tsDiff mj timestamp)

/-- Closed form for the days from 0001-01-01 to the first day of year `y`
(naturals); agrees with `daysBeforeYearZ` on positive years. -/
def BN (y : Nat) : Nat :=
  365 * (y - 1) + (y - 1) / 4 - (y - 1) / 100 + (y - 1) / 400

/-- A trivial all-ok oracle used by concrete witnesses. -/
def oracleStub : Oracle :=
  { now := 0
    authTest := .ok "B0"
    members := .ok ["B0"]
    joinResp := .ok (true, none)
    history := fun _ => .resp true (some [])
    listResp := .ok (true, none, none)
    postResp := .ok (true, none)
    schedResp := .ok (true, none)
    updateResp := .ok (true, none)
    deleteResp := .ok (true, none) }

/-- An all-ok oracle whose history queries return the fixed candidate list
`l` on every attempt, at clock instant 500. -/
def oracleMsgs (l : List Msg) : Oracle :=
  { oracleStub with now := 500, history := fun _ => .resp true (some l) }

theorem cacheFind_put_self (c : Cache) (k : String) (e : CacheEntry) :
    cacheFind (cachePut c k e) k = some e := by
  simp [cacheFind, cachePut, List.find?]

theorem find?_filter_ne (k : String) (l : List (String × CacheEntry)) :
    List.find? (fun p => p.1 == k) (List.filter (fun p => !(p.1 == k)) l) = none := by
  induction l with
  | nil => rfl
  | cons p t ih =>
    by_cases h : p.1 = k
    · simp [List.filter, h, ih]
    · simp only [List.filter]
      have hb : (p.1 == k) = false := beq_false_of_ne h
      simp [hb, List.find?, ih]

theorem cacheFind_delete_self (c : Cache) (k : String) :
    cacheFind (cacheDelete c k) k = none := by
  simp [cacheFind, cacheDelete, find?_filter_ne]

/-- C5: MessageCache bounded-staleness semantics.  A `put` followed by a
`get` of the same `(channel, ts)` key strictly within the 30-second TTL
returns the stored message and leaves the cache untouched; a `get` at or
after 30 seconds evicts the entry and reports a miss, and a further `get`
of the same key (at any time `t2`) is still a miss on the unchanged cache,
with no re-insertion. -/
theorem C5_cache_ttl (c : Cache) (channel ts : String) (m : Msg) (t0 t1 t2 : Int) :
    (t1 - t0 < CACHE_TTL →
      cacheLookup (cachePut c (channel ++ ":" ++ ts) ⟨m, t0⟩) t1 (channel ++ ":" ++ ts) =
        (some m, cachePut c (channel ++ ":" ++ ts) ⟨m, t0⟩)) ∧
    (CACHE_TTL ≤ t1 - t0 →
      cacheLookup (cachePut c (channel ++ ":" ++ ts) ⟨m, t0⟩) t1 (channel ++ ":" ++ ts) =
        (none, cacheDelete (cachePut c (channel ++ ":" ++ ts) ⟨m, t0⟩) (channel ++ ":" ++ ts)) ∧
      cacheFind (cacheDelete (cachePut c (channel ++ ":" ++ ts) ⟨m, t0⟩) (channel ++ ":" ++ ts))
        (channel ++ ":" ++ ts) = none ∧
      cacheLookup (cacheDelete (cachePut c (channel ++ ":" ++ ts) ⟨m, t0⟩) (channel ++ ":" ++ ts))
        t2 (channel ++ ":" ++ ts) =
        (none, cacheDelete (cachePut c (channel ++ ":" ++ ts) ⟨m, t0⟩) (channel ++ ":" ++ ts))) := by
  constructor
  · intro h
    simp [cacheLookup, cacheFind_put_self, h]
  · intro h
    have hstale : ¬ (t1 - t0 < CACHE_TTL) := by omega
    refine ⟨by simp [cacheLookup, cacheFind_put_self, hstale], cacheFind_delete_self _ _, ?_⟩
    simp [cacheLookup, cacheFind_delete_self]

/-- Witness for C5 at a concrete cache, key, message and times 0 / 10000
(fresh read), 30000 (stale read) and 40000 (subsequent read). -/
theorem C5_cache_ttl_witness :
    cacheLookup (cachePut [] "C1:100.000000" ⟨⟨"100.000000", some "hi"⟩, 0⟩) 10000 "C1:100.000000" =
      (some ⟨"100.000000", some "hi"⟩,
        cachePut [] "C1:100.000000" ⟨⟨"100.000000", some "hi"⟩, 0⟩) ∧
    cacheLookup (cachePut [] "C1:100.000000" ⟨⟨"100.000000", some "hi"⟩, 0⟩) 30000 "C1:100.000000" =
      (none, cacheDelete (cachePut [] "C1:100.000000" ⟨⟨"100.000000", some "hi"⟩, 0⟩) "C1:100.000000") ∧
    cacheLookup (cacheDelete (cachePut [] "C1:100.000000" ⟨⟨"100.000000", some "hi"⟩, 0⟩) "C1:100.000000")
      40000 "C1:100.000000" =
      (none, cacheDelete (cachePut [] "C1:100.000000" ⟨⟨"100.000000", some "hi"⟩, 0⟩) "C1:100.000000") := by
  refine ⟨(C5_cache_ttl [] "C1" "100.000000" ⟨"100.000000", some "hi"⟩ 0 10000 0).1 (by decide), ?_, ?_⟩
  · exact ((C5_cache_ttl [] "C1" "100.000000" ⟨"100.000000", some "hi"⟩ 0 30000 0).2 (by decide)).1
  · exact ((C5_cache_ttl [] "C1" "100.000000" ⟨"100.000000", some "hi"⟩ 0 30000 40000).2 (by decide)).2.2

/-- Shared helper: with an invalid channel-id shape, the guard and all five
operations fail immediately, leaving the cache alone and performing no
network call and no sleep. -/
theorem ops_invalid_channel (o : Oracle) (cache : Cache) (channel : String)
    (h : validChannelShape channel = false) (text newText : Option String) (date time : String) :
    ensureBotInChannel o channel = (.error invalidChannelMsg, []) ∧
    sendMessage o cache channel text =
      (.error ("Send message failed: " ++ invalidChannelMsg), cache, []) ∧
    scheduleMessage o cache channel text date time =
      (.error ("Schedule message failed: " ++ invalidChannelMsg), cache, []) ∧
    getMessages o cache channel =
      (.error ("Retrieve messages failed: " ++ invalidChannelMsg), cache, []) ∧
    editMessage o cache channel date time newText =
      (.error ("Edit message failed: " ++ invalidChannelMsg), cache, []) ∧
    deleteMessage o cache channel date time =
      (.error ("Delete message failed: " ++ invalidChannelMsg), cache, []) := by
  have he : ensureBotInChannel o channel = (.error invalidChannelMsg, []) := by
    simp [ensureBotInChannel, h]
  exact ⟨he, by simp [sendMessage, he], by simp [scheduleMessage, he],
    by simp [getMessages, he], by simp [editMessage, he], by simp [deleteMessage, he]⟩

/-- C7: for every channel id that is empty or whose first character is not
`C`, `G` or `D`, `ensureBotInChannel` fails with the invalid-channel-id
error without any network call, and each of the five operations —
everything that would contact the remote platform — fails on the same
shape check with an empty event trace (no network call, no sleep). -/
theorem C7_invalid_channel_fails_fast (o : Oracle) (cache : Cache) (channel : String)
    (h : validChannelShape channel = false) (text newText : Option String) (date time : String) :
    ensureBotInChannel o channel = (.error invalidChannelMsg, []) ∧
    sendMessage o cache channel text =
      (.error ("Send message failed: " ++ invalidChannelMsg), cache, []) ∧
    scheduleMessage o cache channel text date time =
      (.error ("Schedule message failed: " ++ invalidChannelMsg), cache, []) ∧
    getMessages o cache channel =
      (.error ("Retrieve messages failed: " ++ invalidChannelMsg), cache, []) ∧
    editMessage o cache channel date time newText =
      (.error ("Edit message failed: " ++ invalidChannelMsg), cache, []) ∧
    deleteMessage o cache channel date time =
      (.error ("Delete message failed: " ++ invalidChannelMsg), cache, []) :=
  ops_invalid_channel o cache channel h text newText date time

/-- Witness for C7 at the concrete channel id `"X123"` (first character not
`C`, `G` or `D`). -/
theorem C7_invalid_channel_fails_fast_witness :
    ensureBotInChannel oracleStub "X123" = (.error invalidChannelMsg, []) ∧
    sendMessage oracleStub [] "X123" (some "hello") =
      (.error ("Send message failed: " ++ invalidChannelMsg), [], []) ∧
    scheduleMessage oracleStub [] "X123" (some "hello") "31/12/2023" "14:30" =
      (.error ("Schedule message failed: " ++ invalidChannelMsg), [], []) ∧
    getMessages oracleStub [] "X123" =
      (.error ("Retrieve messages failed: " ++ invalidChannelMsg), [], []) ∧
    editMessage oracleStub [] "X123" "31/12/2023" "14:30" (some "new") =
      (.error ("Edit message failed: " ++ invalidChannelMsg), [], []) ∧
    deleteMessage oracleStub [] "X123" "31/12/2023" "14:30" =
      (.error ("Delete message failed: " ++ invalidChannelMsg), [], []) :=
  C7_invalid_channel_fails_fast oracleStub [] "X123" (by decide)
    (some "hello") (some "new") "31/12/2023" "14:30"

/-- C9: every HTTP route substitutes the literal `"#test"` when the channel
is omitted (or empty, which JavaScript's `||` also replaces); `"#test"`
fails the channel-id shape check, so every such request fails and performs
no network call — no operation ever succeeds against the default channel. -/
theorem C9_default_channel_never_succeeds (o : Oracle) (cache : Cache)
    (channel : Option String) (hch : channel = none ∨ channel = some "")
    (text date time newText : Option String) :
    validChannelShape "#test" = false ∧
    channelOrTest channel = "#test" ∧
    isOkResult (sendHandler o cache text channel).1 = false ∧
      (sendHandler o cache text channel).2.2 = [] ∧
    isOkResult (scheduleHandler o cache text date time channel).1 = false ∧
      (scheduleHandler o cache text date time channel).2.2 = [] ∧
    isOkResult (messagesHandler o cache channel).1 = false ∧
      (messagesHandler o cache channel).2.2 = [] ∧
    isOkResult (editHandler o cache date time newText channel).1 = false ∧
      (editHandler o cache date time newText channel).2.2 = [] ∧
    isOkResult (deleteHandler o cache date time channel).1 = false ∧
      (deleteHandler o cache date time channel).2.2 = [] := by
  have hc : channelOrTest channel = "#test" := by
    rcases hch with h | h <;> simp [h, channelOrTest, orDefault]
  have hshape : validChannelShape "#test" = false := by decide
  have hops := ops_invalid_channel o cache "#test" hshape text newText
    ((date.getD "")) ((time.getD ""))
  refine ⟨hshape, hc, ?_, ?_, ?_, ?_, ?_, ?_, ?_, ?_, ?_, ?_⟩
  · unfold sendHandler
    split
    · simp [isOkResult]
    · rw [hc, hops.2.1]; simp [isOkResult]
  · unfold sendHandler
    split
    · rfl
    · rw [hc, hops.2.1]
  · unfold scheduleHandler
    split
    · simp [isOkResult]
    · rw [hc, hops.2.2.1]; simp [isOkResult]
  · unfold scheduleHandler
    split
    · rfl
    · rw [hc, hops.2.2.1]
  · unfold messagesHandler
    rw [hc, hops.2.2.2.1]; simp [isOkResult]
  · unfold messagesHandler
    rw [hc, hops.2.2.2.1]
  · unfold editHandler
    split
    · simp [isOkResult]
    · rw [hc, hops.2.2.2.2.1]; simp [isOkResult]
  · unfold editHandler
    split
    · rfl
    · rw [hc, hops.2.2.2.2.1]
  · unfold deleteHandler
    split
    · simp [isOkResult]
    · rw [hc, hops.2.2.2.2.2]; simp [isOkResult]
  · unfold deleteHandler
    split
    · rfl
    · rw [hc, hops.2.2.2.2.2]

/-- Witness for C9: a request with every field present but the channel
omitted fails on every route with no network call. -/
theorem C9_default_channel_never_succeeds_witness :
    validChannelShape "#test" = false ∧
    channelOrTest none = "#test" ∧
    isOkResult (sendHandler oracleStub [] (some "hello") none).1 = false ∧
      (sendHandler oracleStub [] (some "hello") none).2.2 = [] ∧
    isOkResult (scheduleHandler oracleStub [] (some "hello") (some "31/12/2023")
        (some "14:30") none).1 = false ∧
      (scheduleHandler oracleStub [] (some "hello") (some "31/12/2023") (some "14:30") none).2.2 = [] ∧
    isOkResult (messagesHandler oracleStub [] none).1 = false ∧
      (messagesHandler oracleStub [] none).2.2 = [] ∧
    isOkResult (editHandler oracleStub [] (some "31/12/2023") (some "14:30")
        (some "new") none).1 = false ∧
      (editHandler oracleStub [] (some "31/12/2023") (some "14:30") (some "new") none).2.2 = [] ∧
    isOkResult (deleteHandler oracleStub [] (some "31/12/2023") (some "14:30") none).1 = false ∧
      (deleteHandler oracleStub [] (some "31/12/2023") (some "14:30") none).2.2 = [] :=
  C9_default_channel_never_succeeds oracleStub [] none (Or.inl rfl)
    (some "hello") (some "31/12/2023") (some "14:30") (some "new")

/-- One-step unfolding of `findLoop` when fuel remains (holds by
reflexivity since the recursion is structural on the fuel). -/
theorem findLoop_succ (o : Oracle) (channel : String) (timestamp : Int) (cacheKey : String)
    (cache : Cache) (fuel retries : Nat) :
    findLoop o channel timestamp cacheKey cache (fuel + 1) retries =
      (let ev := Ev.net (.conversationsHistory channel (timestamp - 2) (timestamp + 2) 5)
      match attemptResult (o.history retries) with
      | .ok (m :: ms) =>
        let closest := ms.foldl (pickCloser timestamp) m
        (.ok closest, cachePut cache cacheKey ⟨closest, o.now⟩, [ev])
      | .ok [] =>
        (.error "Message not found at the specified time", cache, [ev])
      | .error e =>
        let r := retries + 1
        if MAX_RETRIES < r then (.error ("Failed to find message: " ++ e), cache, [ev])
        else
          let rec_ := findLoop o channel timestamp cacheKey cache fuel r
          (rec_.1, rec_.2.1, ev :: Ev.sleep (500 * r) :: rec_.2.2)) := rfl

/-- C3: when the cache has no entry for the target and every attempt's
history query fails (zero candidates, a timeout, or a remote error),
`findMessageByTimestamp` issues exactly `1 + MAX_RETRIES = 3` history
requests, awaits `500 ms * attemptNumber` between failed attempts (500 ms,
then 1000 ms), leaves the cache unchanged, and only then fails with the
NotFound-shaped error carrying the last underlying error's message. -/
theorem C3_retries_exhausted (o : Oracle) (cache : Cache) (channel : String) (timestamp : Int)
    (hmiss : cacheFind cache (cacheKeyOf channel timestamp) = none) (e0 e1 e2 : String)
    (h0 : attemptResult (o.history 0) = .error e0)
    (h1 : attemptResult (o.history 1) = .error e1)
    (h2 : attemptResult (o.history 2) = .error e2) :
    findMessageByTimestamp o cache channel timestamp =
      (.error ("Failed to find message: " ++ e2), cache,
        [Ev.net (.conversationsHistory channel (timestamp - 2) (timestamp + 2) 5),
         Ev.sleep 500,
         Ev.net (.conversationsHistory channel (timestamp - 2) (timestamp + 2) 5),
         Ev.sleep 1000,
         Ev.net (.conversationsHistory channel (timestamp - 2) (timestamp + 2) 5)]) := by
  have hcl : cacheLookup cache o.now (cacheKeyOf channel timestamp) = (none, cache) := by
    simp [cacheLookup, hmiss]
  have L1 : findLoop o channel timestamp (cacheKeyOf channel timestamp) cache 1 2 =
      (.error ("Failed to find message: " ++ e2), cache,
        [Ev.net (.conversationsHistory channel (timestamp - 2) (timestamp + 2) 5)]) := by
    show findLoop o channel timestamp (cacheKeyOf channel timestamp) cache (0 + 1) 2 = _
    rw [findLoop_succ, h2]
    norm_num [MAX_RETRIES]
  have L2 : findLoop o channel timestamp (cacheKeyOf channel timestamp) cache 2 1 =
      (.error ("Failed to find message: " ++ e2), cache,
        [Ev.net (.conversationsHistory channel (timestamp - 2) (timestamp + 2) 5),
         Ev.sleep 1000,
         Ev.net (.conversationsHistory channel (timestamp - 2) (timestamp + 2) 5)]) := by
    show findLoop o channel timestamp (cacheKeyOf channel timestamp) cache (1 + 1) 1 = _
    rw [findLoop_succ, h1]
    norm_num [MAX_RETRIES, L1]
  have L3 : findLoop o channel timestamp (cacheKeyOf channel timestamp) cache 3 0 =
      (.error ("Failed to find message: " ++ e2), cache,
        [Ev.net (.conversationsHistory channel (timestamp - 2) (timestamp + 2) 5),
         Ev.sleep 500,
         Ev.net (.conversationsHistory channel (timestamp - 2) (timestamp + 2) 5),
         Ev.sleep 1000,
         Ev.net (.conversationsHistory channel (timestamp - 2) (timestamp + 2) 5)]) := by
    show findLoop o channel timestamp (cacheKeyOf channel timestamp) cache (2 + 1) 0 = _
    rw [findLoop_succ, h0]
    norm_num [MAX_RETRIES, L2]
  unfold findMessageByTimestamp
  simp only [hcl]
  exact L3

/-- Witness for C3: an oracle answering every attempt with an `ok` response
holding zero messages makes the resolver fail only after three history
calls with 500 ms and 1000 ms waits in between. -/
theorem C3_retries_exhausted_witness :
    findMessageByTimestamp oracleStub [] "C1" 100 =
      (.error "Failed to find message: Message not found at the specified time", [],
        [Ev.net (.conversationsHistory "C1" 98 102 5),
         Ev.sleep 500,
         Ev.net (.conversationsHistory "C1" 98 102 5),
         Ev.sleep 1000,
         Ev.net (.conversationsHistory "C1" 98 102 5)]) :=
  C3_retries_exhausted oracleStub [] "C1" 100 rfl
    "Message not found at the specified time" "Message not found at the specified time"
    "Message not found at the specified time" rfl rfl rfl

/-- The source's `reduce((prev, curr) => currDiff < prevDiff ? curr : prev)`
(a left fold starting from the first candidate) returns a first-encountered
minimiser of the distance to the target. -/
theorem foldl_pickCloser_closestFirst (T : Int) :
    ∀ (ms : List Msg) (m : Msg), isClosestFirst (m :: ms) T (ms.foldl (pickCloser T) m) := by
  intro ms
  induction ms with
  | nil =>
    intro a
    simp only [List.foldl_nil]
    refine ⟨0, rfl, ?_, ?_⟩
    · intro k mk hk
      cases k with
      | zero =>
        have hm : a = mk := by simpa using hk
        simp [hm]
      | succ k => simp at hk
    · intro k mk hklt hk
      omega
  | cons x rest ih =>
    intro a
    simp only [List.foldl_cons]
    by_cases hc : tsDiff x T < tsDiff a T
    · rw [show pickCloser T a x = x from by simp [pickCloser, hc]]
      obtain ⟨i, hi, hmin, hfirst⟩ := ih x
      refine ⟨i + 1, by simpa using hi, ?_, ?_⟩
      · intro k mk hk
        cases k with
        | zero =>
          have hm : a = mk := by simpa using hk
          subst hm
          exact le_of_lt (lt_of_le_of_lt (hmin 0 x (by simp)) hc)
        | succ k =>
          exact hmin k mk (by simpa using hk)
      · intro k mk hklt hk
        cases k with
        | zero =>
          have hm : a = mk := by simpa using hk
          subst hm
          exact lt_of_le_of_lt (hmin 0 x (by simp)) hc
        | succ k =>
          exact hfirst k mk (by omega) (by simpa using hk)
    · rw [show pickCloser T a x = a from by simp [pickCloser, hc]]
      obtain ⟨i, hi, hmin, hfirst⟩ := ih a
      have hax : tsDiff a T ≤ tsDiff x T := not_lt.mp hc
      cases i with
      | zero =>
        refine ⟨0, by simpa using hi, ?_, ?_⟩
        · intro k mk hk
          cases k with
          | zero =>
            have hm : a = mk := by simpa using hk
            subst hm
            exact hmin 0 a (by simp)
          | succ k =>
            cases k with
            | zero =>
              have hm : x = mk := by simpa using hk
              subst hm
              exact le_trans (hmin 0 a (by simp)) hax
            | succ k =>
              exact hmin (k + 1) mk (by simpa using hk)
        · intro k mk hklt hk
          omega
      | succ i =>
        refine ⟨i + 2, by simpa using hi, ?_, ?_⟩
        · intro k mk hk
          cases k with
          | zero =>
            have hm : a = mk := by simpa using hk
            subst hm
            exact hmin 0 a (by simp)
          | succ k =>
            cases k with
            | zero =>
              have hm : x = mk := by simpa using hk
              subst hm
              exact le_trans (hmin 0 a (by simp)) hax
            | succ k =>
              exact hmin (k + 1) mk (by simpa using hk)
        · intro k mk hklt hk
          cases k with
          | zero =>
            have hm : a = mk := by simpa using hk
            subst hm
            exact hfirst 0 a (by omega) (by simp)
          | succ k =>
            cases k with
            | zero =>
              have hm : x = mk := by simpa using hk
              subst hm
              exact lt_of_lt_of_le (hfirst 0 a (by omega) (by simp)) hax
            | succ k =>
              exact hfirst (k + 1) mk (by omega) (by simpa using hk)

/-- C4: on a cache miss whose first history attempt succeeds with a
non-empty candidate list, `findMessageByTimestamp` returns (and caches
under the target key) a message with the minimum absolute timestamp
distance from the target epoch, ties broken in favour of the
first-encountered candidate in the returned order. -/
theorem C4_selects_closest_first (o : Oracle) (cache : Cache) (channel : String)
    (timestamp : Int) (hmiss : cacheFind cache (cacheKeyOf channel timestamp) = none)
    (l : List Msg) (hist : o.history 0 = .resp true (some l)) (hne : l ≠ []) :
    ∃ w, findMessageByTimestamp o cache channel timestamp =
      (.ok w, cachePut cache (cacheKeyOf channel timestamp) ⟨w, o.now⟩,
        [Ev.net (.conversationsHistory channel (timestamp - 2) (timestamp + 2) 5)]) ∧
    isClosestFirst l timestamp w := by
  match l, hne with
  | m :: ms, _ =>
    have hcl : cacheLookup cache o.now (cacheKeyOf channel timestamp) = (none, cache) := by
      simp [cacheLookup, hmiss]
    have hatt : attemptResult (o.history 0) = .ok (m :: ms) := by
      rw [hist]; simp [attemptResult]
    refine ⟨ms.foldl (pickCloser timestamp) m, ?_, foldl_pickCloser_closestFirst timestamp ms m⟩
    unfold findMessageByTimestamp
    simp only [hcl]
    show findLoop o channel timestamp (cacheKeyOf channel timestamp) cache (MAX_RETRIES + 1) 0 = _
    rw [findLoop_succ, hatt]

/-- Witness for C4 at the spec's concrete instance: candidates at ts 100.0
and 103.0 with target epoch 101; the resolver picks the message at 100.0
(1 s away rather than 2 s) and caches it under the target key. -/
theorem C4_selects_closest_first_witness :
    (∃ w, findMessageByTimestamp (oracleMsgs [⟨"100.0", none⟩, ⟨"103.0", none⟩]) [] "C1" 101 =
      (.ok w, cachePut [] (cacheKeyOf "C1" 101) ⟨w, (oracleMsgs [⟨"100.0", none⟩, ⟨"103.0", none⟩]).now⟩,
        [Ev.net (.conversationsHistory "C1" 99 103 5)]) ∧
      isClosestFirst [⟨"100.0", none⟩, ⟨"103.0", none⟩] 101 w) ∧
    findMessageByTimestamp (oracleMsgs [⟨"100.0", none⟩, ⟨"103.0", none⟩]) [] "C1" 101 =
      (.ok ⟨"100.0", none⟩, [("C1:101", ⟨⟨"100.0", none⟩, 500⟩)],
        [Ev.net (.conversationsHistory "C1" 99 103 5)]) := by
  refine ⟨C4_selects_closest_first (oracleMsgs [⟨"100.0", none⟩, ⟨"103.0", none⟩]) [] "C1" 101 rfl
      [⟨"100.0", none⟩, ⟨"103.0", none⟩] rfl (by simp), ?_⟩
  have e100 : parseTs "100.0" = ((100 : Nat) : ℚ) + ((0 : Nat) : ℚ) / (10 : ℚ) ^ (1 : Nat) := rfl
  have e103 : parseTs "103.0" = ((103 : Nat) : ℚ) + ((0 : Nat) : ℚ) / (10 : ℚ) ^ (1 : Nat) := rfl
  have d100 : tsDiff ⟨"100.0", none⟩ 101 = 1 := by
    unfold tsDiff
    rw [show Msg.ts ⟨"100.0", none⟩ = "100.0" from rfl, e100]
    norm_num
  have d103 : tsDiff ⟨"103.0", none⟩ 101 = 2 := by
    unfold tsDiff
    rw [show Msg.ts ⟨"103.0", none⟩ = "103.0" from rfl, e103]
    norm_num
  have hcomp : ¬ (tsDiff ⟨"103.0", none⟩ 101 < tsDiff ⟨"100.0", none⟩ 101) := by
    rw [d100, d103]
    norm_num
  have hw : List.foldl (pickCloser 101) (⟨"100.0", none⟩ : Msg) [⟨"103.0", none⟩] =
      (⟨"100.0", none⟩ : Msg) := by
    simp only [List.foldl_cons, List.foldl_nil, pickCloser, if_neg hcomp]
  have hatt : attemptResult ((oracleMsgs [⟨"100.0", none⟩, ⟨"103.0", none⟩]).history 0) =
      .ok [⟨"100.0", none⟩, ⟨"103.0", none⟩] := rfl
  unfold findMessageByTimestamp
  simp only [show cacheLookup [] (oracleMsgs [⟨"100.0", none⟩, ⟨"103.0", none⟩]).now
      (cacheKeyOf "C1" 101) = (none, []) from rfl]
  show findLoop (oracleMsgs [⟨"100.0", none⟩, ⟨"103.0", none⟩]) "C1" 101
      (cacheKeyOf "C1" 101) [] (MAX_RETRIES + 1) 0 = _
  rw [findLoop_succ, hatt]
  simp only [hw]
  rfl

/-- C6: a successful `editMessage` issues its `chat.update` call with the
resolved message's exact `ts` — not the caller-supplied approximate time —
and with the caller's (non-empty) new text, and then overwrites the cache
entry keyed by that exact `ts` with the message carrying the new text. -/
theorem C6_edit_uses_exact_ts (o : Oracle) (cache : Cache) (channel date time : String)
    (t : String) (ht : ¬ t.data = []) (T : Int) (hparse : parseDateTime date time = .ok T)
    (b : Bool) (tr1 : List Ev) (hens : ensureBotInChannel o channel = (.ok b, tr1))
    (m : Msg) (c2 : Cache) (tr2 : List Ev)
    (hfind : findMessageByTimestamp o cache channel T = (.ok m, c2, tr2))
    (u : Option String) (hup : o.updateResp = .ok (true, u)) :
    editMessage o cache channel date time (some t) =
      (.ok (), cachePut c2 (channel ++ ":" ++ m.ts) ⟨{ m with text := some t }, o.now⟩,
        tr1 ++ tr2 ++ [Ev.net (.chatUpdate channel m.ts t)]) := by
  unfold editMessage
  simp only [hens, hparse, hfind, hup]
  simp [orDefault, ht]

/-- Witness for C6: the spec's scenario `date=31/12/2023, time=14:30`
resolves to epoch 1704033000; the only candidate has the exact fixed-point
ts "1704033000.123456", and the update call and refreshed cache entry use
that exact ts (the caller's 1704033000 appears only in the resolver key). -/
theorem C6_edit_uses_exact_ts_witness :
    editMessage (oracleMsgs [⟨"1704033000.123456", some "hi"⟩]) [] "C1" "31/12/2023" "14:30"
        (some "new") =
      (.ok (),
        cachePut [("C1:1704033000", ⟨⟨"1704033000.123456", some "hi"⟩, 500⟩)]
          ("C1" ++ ":" ++ "1704033000.123456")
          ⟨⟨"1704033000.123456", some "new"⟩, 500⟩,
        [Ev.net .authTest, Ev.net (.conversationsMembers "C1")] ++
          [Ev.net (.conversationsHistory "C1" 1704032998 1704033002 5)] ++
          [Ev.net (.chatUpdate "C1" "1704033000.123456" "new")]) :=
  C6_edit_uses_exact_ts (oracleMsgs [⟨"1704033000.123456", some "hi"⟩]) [] "C1" "31/12/2023"
    "14:30" "new" (by decide) 1704033000 rfl true
    [Ev.net .authTest, Ev.net (.conversationsMembers "C1")] rfl
    ⟨"1704033000.123456", some "hi"⟩
    [("C1:1704033000", ⟨⟨"1704033000.123456", some "hi"⟩, 500⟩)]
    [Ev.net (.conversationsHistory "C1" 1704032998 1704033002 5)] rfl none rfl

/-- C10: when the text argument is absent or empty, `sendMessage`,
`scheduleMessage` and `editMessage` do not fail for missing text: each
proceeds and issues its remote call with its fixed default string
("Hello from InternshipBot!", "Scheduled message from InternshipBot!",
"Updated message from InternshipBot!" respectively). -/
theorem C10_default_texts (o : Oracle) (cache : Cache) (channel date time : String)
    (text : Option String) (htext : text = none ∨ text = some "")
    (b : Bool) (tr1 : List Ev) (hens : ensureBotInChannel o channel = (.ok b, tr1)) :
    (∀ u, o.postResp = .ok (true, u) →
      sendMessage o cache channel text =
        (.ok (), cache, tr1 ++ [Ev.net (.chatPostMessage channel "Hello from InternshipBot!")])) ∧
    (∀ T u, parseDateTime date time = .ok T → o.schedResp = .ok (true, u) →
      scheduleMessage o cache channel text date time =
        (.ok (), cache,
          tr1 ++ [Ev.net (.chatScheduleMessage channel "Scheduled message from InternshipBot!" T)])) ∧
    (∀ T (m : Msg) (c2 : Cache) (tr2 : List Ev) u, parseDateTime date time = .ok T →
      findMessageByTimestamp o cache channel T = (.ok m, c2, tr2) →
      o.updateResp = .ok (true, u) →
      editMessage o cache channel date time text =
        (.ok (), cachePut c2 (channel ++ ":" ++ m.ts) ⟨{ m with text := text }, o.now⟩,
          tr1 ++ tr2 ++
            [Ev.net (.chatUpdate channel m.ts "Updated message from InternshipBot!")])) := by
  have hdef : ∀ d : String, orDefault text d = d := by
    intro d
    rcases htext with h | h <;> simp [h, orDefault]
  refine ⟨?_, ?_, ?_⟩
  · intro u hpost
    unfold sendMessage
    simp only [hens, hpost, hdef]
    simp
  · intro T u hparse hsched
    unfold scheduleMessage
    simp only [hens, hparse, hsched, hdef]
    simp
  · intro T m c2 tr2 u hparse hfind hup
    unfold editMessage
    simp only [hens, hparse, hfind, hup, hdef]
    simp

/-- Witness for C10 with the text omitted (`none`): all three operations
succeed and carry their default strings to the remote platform. -/
theorem C10_default_texts_witness :
    sendMessage (oracleMsgs [⟨"1704033000.123456", some "hi"⟩]) [] "C1" none =
      (.ok (), [],
        [Ev.net .authTest, Ev.net (.conversationsMembers "C1")] ++
          [Ev.net (.chatPostMessage "C1" "Hello from InternshipBot!")]) ∧
    scheduleMessage (oracleMsgs [⟨"1704033000.123456", some "hi"⟩]) [] "C1" none
        "31/12/2023" "14:30" =
      (.ok (), [],
        [Ev.net .authTest, Ev.net (.conversationsMembers "C1")] ++
          [Ev.net (.chatScheduleMessage "C1" "Scheduled message from InternshipBot!" 1704033000)]) ∧
    editMessage (oracleMsgs [⟨"1704033000.123456", some "hi"⟩]) [] "C1" "31/12/2023" "14:30" none =
      (.ok (),
        cachePut [("C1:1704033000", ⟨⟨"1704033000.123456", some "hi"⟩, 500⟩)]
          ("C1" ++ ":" ++ "1704033000.123456")
          ⟨⟨"1704033000.123456", none⟩, 500⟩,
        [Ev.net .authTest, Ev.net (.conversationsMembers "C1")] ++
          [Ev.net (.conversationsHistory "C1" 1704032998 1704033002 5)] ++
          [Ev.net (.chatUpdate "C1" "1704033000.123456" "Updated message from InternshipBot!")]) := by
  have h := C10_default_texts (oracleMsgs [⟨"1704033000.123456", some "hi"⟩]) [] "C1"
    "31/12/2023" "14:30" none (Or.inl rfl) true
    [Ev.net .authTest, Ev.net (.conversationsMembers "C1")] rfl
  exact ⟨h.1 none rfl, h.2.1 1704033000 none rfl rfl,
    h.2.2 1704033000 ⟨"1704033000.123456", some "hi"⟩
      [("C1:1704033000", ⟨⟨"1704033000.123456", some "hi"⟩, 500⟩)]
      [Ev.net (.conversationsHistory "C1" 1704032998 1704033002 5)] none rfl rfl rfl⟩

/-- C1 (refuting evaluation): `deleteMessage` succeeds and removes the key
`channel:message.ts` (`"C1:100.000000"`), but the resolver cached the
message under the target-epoch key `"C1:1704067200"` while resolving it,
and that entry survives the delete.  A subsequent `findMessageByTimestamp`
for the same resolved target timestamp therefore returns the already
deleted message as a cache hit, performing no network call at all —
contrary to the specified cache miss that goes to the remote platform. -/
theorem C1_delete_leaves_stale_resolver_entry :
    deleteMessage (oracleMsgs [⟨"100.000000", some "hello"⟩]) [] "C1" "01/01/2024" "00:00" =
      (.ok (), [("C1:1704067200", ⟨⟨"100.000000", some "hello"⟩, 500⟩)],
        [Ev.net .authTest, Ev.net (.conversationsMembers "C1"),
         Ev.net (.conversationsHistory "C1" 1704067198 1704067202 5),
         Ev.net (.chatDelete "C1" "100.000000")]) ∧
    findMessageByTimestamp (oracleMsgs [⟨"100.000000", some "hello"⟩])
        [("C1:1704067200", ⟨⟨"100.000000", some "hello"⟩, 500⟩)] "C1" 1704067200 =
      (.ok ⟨"100.000000", some "hello"⟩,
        [("C1:1704067200", ⟨⟨"100.000000", some "hello"⟩, 500⟩)], []) :=
  ⟨rfl, rfl⟩

set_option maxRecDepth 100000 in
/-- C2 (refuting evaluation): for the invalid calendar date `31/02/2024`
the host calendar rolls the components over to 2024-03-02, so
`parseDateTime` returns the epoch value 1709389800 (2024-03-02 14:30)
instead of failing with the InvalidDate error; the `isNaN` validity check
on line 41 can never fire for numeric in-range inputs. -/
theorem C2_feb31_rolls_over :
    parseDateTime "31/02/2024" "14:30" = .ok 1709389800 ∧
    formatEpoch 1709389800 = (2024, 3, 2, 14, 30, 0) :=
  ⟨rfl, rfl⟩

theorem isLeapZ_natCast (y : Nat) : isLeapZ (y : Int) = isLeapN y := by
  simp only [isLeapZ, isLeapN]
  rw [Bool.eq_iff_iff]
  simp only [Bool.or_eq_true, Bool.and_eq_true, beq_iff_eq, bne_iff_ne, ne_eq]
  omega

theorem daysBeforeYearZ_natCast (y : Nat) (hy : 1 ≤ y) :
    daysBeforeYearZ (y : Int) = (BN y : Int) := by
  unfold daysBeforeYearZ BN
  rw [Int.fdiv_eq_ediv _ (by norm_num), Int.fdiv_eq_ediv _ (by norm_num),
    Int.fdiv_eq_ediv _ (by norm_num)]
  omega

set_option maxHeartbeats 2000000 in
theorem BN_succ (y : Nat) (hy : 1 ≤ y) : BN (y + 1) = BN y + daysInYearN y := by
  unfold BN daysInYearN
  simp only [Nat.add_sub_cancel]
  cases h : isLeapN y with
  | true =>
    norm_num
    simp only [isLeapN, Bool.or_eq_true, Bool.and_eq_true, beq_iff_eq, bne_iff_ne, ne_eq] at h
    omega
  | false =>
    norm_num
    simp only [isLeapN, Bool.or_eq_false_iff, Bool.and_eq_false_iff, beq_eq_false_iff_ne,
      bne_eq_false_iff_eq, ne_eq] at h
    omega

theorem BN_mono (a b : Nat) (ha : 1 ≤ a) (hab : a ≤ b) : BN a ≤ BN b := by
  induction b with
  | zero => omega
  | succ b ih =>
    rcases Nat.lt_or_ge a (b + 1) with hlt | hge
    · have hb1 : 1 ≤ b := by omega
      have hstep : BN b ≤ BN (b + 1) := by
        rw [BN_succ b hb1]
        exact Nat.le_add_right _ _
      exact le_trans (ih (by omega)) hstep
    · have heq : a = b + 1 := by omega
      rw [heq]

theorem yearUpAux_spec : ∀ (fuel y0 y k : Nat), 1 ≤ y0 → y0 ≤ y → y - y0 ≤ fuel →
    k < daysInYearN y → yearUpAux fuel y0 (BN y - BN y0 + k) = (y, k) := by
  intro fuel
  induction fuel with
  | zero =>
    intro y0 y k h1 h2 h3 h4
    have hy : y = y0 := by omega
    subst hy
    simp [yearUpAux]
  | succ fuel ih =>
    intro y0 y k h1 h2 h3 h4
    by_cases heq : y = y0
    · subst heq
      simp only [yearUpAux, Nat.sub_self, Nat.zero_add]
      rw [if_pos h4]
    · have hlt : y0 < y := by omega
      have hstep : BN (y0 + 1) = BN y0 + daysInYearN y0 := BN_succ y0 h1
      have hmono : BN (y0 + 1) ≤ BN y := BN_mono (y0 + 1) y (by omega) (by omega)
      have hge : ¬ (BN y - BN y0 + k < daysInYearN y0) := by omega
      simp only [yearUpAux]
      rw [if_neg hge]
      have harg : BN y - BN y0 + k - daysInYearN y0 = BN y - BN (y0 + 1) + k := by omega
      rw [harg]
      exact ih (y0 + 1) y k (by omega) (by omega) (by omega) h4

theorem yearUp_spec (y k : Nat) (hy : 1 ≤ y) (hk : k < daysInYearN y) :
    yearUp (BN y + k) = (y, k) := by
  have hBN1 : BN 1 = 0 := rfl
  have hlow : 365 * (y - 1) ≤ BN y := by unfold BN; omega
  have hfuel : y - 1 ≤ (BN y + k) / 365 + 1 := by
    have : 365 * (y - 1) ≤ BN y + k := by omega
    omega
  have := yearUpAux_spec ((BN y + k) / 365 + 1) 1 y k (by omega) hy hfuel hk
  unfold yearUp
  rw [show BN y + k = BN y - BN 1 + k by omega] at this ⊢
  exact this

theorem monthOf_table (L : Bool) : ∀ (m : Fin 13) (dd : Fin 32),
    1 ≤ m.val → 1 ≤ dd.val → dd.val ≤ monthLen L m.val →
    (monthOf L (monthOffsetN L (m.val - 1) + (dd.val - 1)) = (m.val, dd.val) ∧
      monthOffsetN L (m.val - 1) + (dd.val - 1) < if L then 366 else 365) := by
  cases L <;> decide

/-- `Int.emod` is the `%` of the `HMod` instance. -/
theorem emod_eq_mod (a b : Int) : Int.emod a b = a % b := rfl

theorem monthLen_le (L : Bool) (m : Nat) : monthLen L m ≤ 31 := by
  unfold monthLen
  split
  · split <;> omega
  all_goals omega

theorem mkEpoch_valid (d mo y h mi s : Nat) (hd1 : 1 ≤ d) (hd2 : d ≤ monthLen (isLeapN y) mo)
    (hm1 : 1 ≤ mo) (hm2 : mo ≤ 12) (hy1 : 100 ≤ y) (hy2 : y ≤ 270000)
    (hh : h < 24) (hmi : mi < 60) (hs : s < 60) :
    mkEpoch d mo y h mi s =
      .ok ((((BN y + (monthOffsetN (isLeapN y) (mo - 1) + (d - 1)) : Nat) : Int) - 719162) * 86400 +
        ((h * 3600 + mi * 60 + s : Nat) : Int)) := by
  have hml := monthLen_le (isLeapN y) mo
  have hL := monthOf_table (isLeapN y) ⟨mo, by omega⟩ ⟨d, by omega⟩ hm1 hd1 hd2
  have hk366 : monthOffsetN (isLeapN y) (mo - 1) + (d - 1) < 366 := by
    have h2 : monthOffsetN (isLeapN y) (mo - 1) + (d - 1) <
        if isLeapN y then 366 else 365 := hL.2
    split at h2 <;> omega
  have hBNdef : BN y = 365 * (y - 1) + (y - 1) / 4 - (y - 1) / 100 + (y - 1) / 400 := rfl
  have h99 : ¬ (0 ≤ (y : Int) ∧ (y : Int) ≤ 99) := by omega
  have hfd12 : Int.fdiv ((mo : Int) - 1) 12 = 0 := by
    rw [Int.fdiv_eq_ediv _ (by norm_num)]
    omega
  have hmod12 : Int.emod ((mo : Int) - 1) 12 = (mo : Int) - 1 := by
    rw [emod_eq_mod]
    omega
  have htoNat : ((mo : Int) - 1).toNat = mo - 1 := by omega
  simp only [mkEpoch, if_neg h99, hfd12, hmod12, htoNat, add_zero, isLeapZ_natCast,
    daysBeforeYearZ_natCast y (by omega)]
  rw [if_neg ?hbound]
  case hbound => omega
  rw [Int.fdiv_eq_ediv _ (by norm_num)]
  congr 1
  omega

theorem formatEpoch_valid (y k tod : Nat) (hy : 1 ≤ y) (hk : k < daysInYearN y)
    (htod : tod < 86400) :
    formatEpoch ((((BN y + k : Nat) : Int) - 719162) * 86400 + ((tod : Nat) : Int)) =
      ((y : Int), (monthOf (isLeapN y) k).1, (monthOf (isLeapN y) k).2,
        tod / 3600, tod % 3600 / 60, tod % 60) := by
  have hday : Int.fdiv ((((BN y + k : Nat) : Int) - 719162) * 86400 + ((tod : Nat) : Int)) 86400 =
      ((BN y + k : Nat) : Int) - 719162 := by
    rw [Int.fdiv_eq_ediv _ (by norm_num)]
    omega
  have htodz : ((((BN y + k : Nat) : Int) - 719162) * 86400 + ((tod : Nat) : Int) -
      (((BN y + k : Nat) : Int) - 719162) * 86400).toNat = tod := by omega
  have hpos : (0 : Int) ≤ ((BN y + k : Nat) : Int) - 719162 + 719162 := by omega
  have hn : (((BN y + k : Nat) : Int) - 719162 + 719162).toNat = BN y + k := by omega
  simp only [formatEpoch, hday, htodz, hn, if_pos hpos, yearUp_spec y k hy hk,
    isLeapZ_natCast]

theorem parseDateTime_reduces (dateStr timeStr : String) (a b c p q : List Char)
    (d mo y h mi s : Nat)
    (hsplit : splitOnChar '/' dateStr.data = [a, b, c])
    (ha : jsNumChars a = some ((d : Nat) : Int)) (hb : jsNumChars b = some ((mo : Nat) : Int))
    (hc : jsNumChars c = some ((y : Nat) : Int))
    (htime : (splitOnChar ':' timeStr.data = [p, q] ∧ s = 0) ∨
      (∃ r, splitOnChar ':' timeStr.data = [p, q, r] ∧ jsNumChars r = some ((s : Nat) : Int)))
    (hp : jsNumChars p = some ((h : Nat) : Int)) (hq : jsNumChars q = some ((mi : Nat) : Int))
    (hd : 1 ≤ d) (hmo : 1 ≤ mo) (hy : 1 ≤ y) :
    parseDateTime dateStr timeStr = mkEpoch d mo y h mi s := by
  have hdne : ¬ (dateStr.data = []) := by
    intro hnil
    rw [hnil] at hsplit
    simp [splitOnChar] at hsplit
  have htne : ¬ (timeStr.data = []) := by
    rcases htime with ⟨ht, -⟩ | ⟨r, ht, -⟩ <;> intro hnil <;> rw [hnil] at ht <;>
      simp [splitOnChar] at ht
  have hzero : ¬ (((d : Nat) : Int) = 0 ∨ ((mo : Nat) : Int) = 0 ∨ ((y : Nat) : Int) = 0) := by
    omega
  unfold parseDateTime
  rw [if_neg (not_or.mpr ⟨hdne, htne⟩)]
  rw [hsplit]
  simp only [List.map_cons, List.map_nil, ha, hb, hc]
  rw [if_neg hzero]
  rcases htime with ⟨ht, hs0⟩ | ⟨r, ht, hr⟩
  · rw [ht]
    simp only [List.map_cons, List.map_nil, hp, hq]
    subst hs0
    rfl
  · rw [ht]
    simp only [List.map_cons, List.map_nil, hp, hq, hr]
    rfl

/-- C8 (amended): for every `dd/mm/yyyy` date string and `hh:mm` or
`hh:mm:ss` time string whose split pieces parse to a valid calendar moment
— day within the month, month 1–12, hour < 24, minute < 60, second < 60
(0 when omitted) — **with a year of at least 100** (the host calendar
reinterprets two-digit years as `1900 + year`, see the counterexample) and
within the host's representable range (year ≤ 270000 keeps `|ms| ≤
8.64e15`), the epoch value produced by `parseDateTime`, reformatted under
the same host-local interpretation, reproduces the supplied day, month,
year, hour, minute and second. -/
theorem C8_round_trip_amended (dateStr timeStr : String) (a b c p q : List Char)
    (d mo y h mi s : Nat)
    (hsplit : splitOnChar '/' dateStr.data = [a, b, c])
    (ha : jsNumChars a = some ((d : Nat) : Int)) (hb : jsNumChars b = some ((mo : Nat) : Int))
    (hc : jsNumChars c = some ((y : Nat) : Int))
    (htime : (splitOnChar ':' timeStr.data = [p, q] ∧ s = 0) ∨
      (∃ r, splitOnChar ':' timeStr.data = [p, q, r] ∧ jsNumChars r = some ((s : Nat) : Int)))
    (hp : jsNumChars p = some ((h : Nat) : Int)) (hq : jsNumChars q = some ((mi : Nat) : Int))
    (hd1 : 1 ≤ d) (hd2 : d ≤ monthLen (isLeapN y) mo) (hm1 : 1 ≤ mo) (hm2 : mo ≤ 12)
    (hy1 : 100 ≤ y) (hy2 : y ≤ 270000) (hh : h < 24) (hmi : mi < 60) (hs : s < 60) :
    ∃ E, parseDateTime dateStr timeStr = .ok E ∧
      formatEpoch E = ((y : Int), mo, d, h, mi, s) := by
  have hred := parseDateTime_reduces dateStr timeStr a b c p q d mo y h mi s hsplit ha hb hc
    htime hp hq (by omega) (by omega) (by omega)
  have hmk := mkEpoch_valid d mo y h mi s hd1 hd2 hm1 hm2 hy1 hy2 hh hmi hs
  have hml := monthLen_le (isLeapN y) mo
  have hL := monthOf_table (isLeapN y) ⟨mo, by omega⟩ ⟨d, by omega⟩ hm1 hd1 hd2
  have hL1 : monthOf (isLeapN y) (monthOffsetN (isLeapN y) (mo - 1) + (d - 1)) = (mo, d) := hL.1
  have hL2 : monthOffsetN (isLeapN y) (mo - 1) + (d - 1) <
      if isLeapN y then 366 else 365 := hL.2
  have hkd : monthOffsetN (isLeapN y) (mo - 1) + (d - 1) < daysInYearN y := by
    unfold daysInYearN
    exact hL2
  have htod : h * 3600 + mi * 60 + s < 86400 := by omega
  have hfe := formatEpoch_valid y (monthOffsetN (isLeapN y) (mo - 1) + (d - 1))
    (h * 3600 + mi * 60 + s) (by omega) hkd htod
  have e1 : (h * 3600 + mi * 60 + s) / 3600 = h := by omega
  have e2 : (h * 3600 + mi * 60 + s) % 3600 / 60 = mi := by omega
  have e3 : (h * 3600 + mi * 60 + s) % 60 = s := by omega
  refine ⟨_, hred.trans hmk, ?_⟩
  rw [hfe, hL1, e1, e2, e3]

set_option maxRecDepth 100000 in
/-- C8 (refuting evaluation): `"01/01/0099"` is a well-formed `dd/mm/yyyy`
date string naming a valid calendar day (1 January of year 99), but the
host calendar maps two-digit years to `1900 + year`, so the produced epoch
value reformats to the year 1999, not 99 — the round trip fails. -/
theorem C8_round_trip_fails_for_two_digit_years :
    parseDateTime "01/01/0099" "00:00" = .ok 915148800 ∧
    formatEpoch 915148800 = (1999, 1, 1, 0, 0, 0) ∧ ((1999 : Int) ≠ (99 : Int)) :=
  ⟨rfl, rfl, by decide⟩

/-- Witness for the amended C8 at `"31/12/2023"`/`"14:30"`: the epoch value
reformats to exactly 2023-12-31 14:30:00. -/
theorem C8_round_trip_amended_witness :
    ∃ E, parseDateTime "31/12/2023" "14:30" = .ok E ∧
      formatEpoch E = ((2023 : Int), 12, 31, 14, 30, 0) :=
  C8_round_trip_amended "31/12/2023" "14:30"
    ['3', '1'] ['1', '2'] ['2', '0', '2', '3'] ['1', '4'] ['3', '0']
    31 12 2023 14 30 0 rfl rfl rfl rfl (Or.inl ⟨rfl, rfl⟩) rfl rfl
    (by norm_num) (by decide) (by norm_num) (by norm_num) (by norm_num) (by norm_num)
    (by norm_num) (by norm_num) (by norm_num)
